import Mathlib

/-!
Shallow embedding of `src/task_classifier.py` (a Streamlit app that routes
free-text queries to one of two hosted LLM backends, generates images via a
cached HTTP fetch, and answers questions about an uploaded image).

External collaborators (the two LLM backends, the HTTP image endpoint, the
Streamlit rendering surface) are modelled as oracle functions passed in as
parameters; Python strings are Lean `String`s, raw bytes are `List Nat`
(each entry < 256), and Python's truthiness test on a string is the
non-emptiness test.
-/

namespace TaskClassifier

/-- The two LLM backend handles created at startup:
`gemini_llm` (multimodal-capable) and `openai_llm` (text). -/
inductive Backend where
  | gemini
  | openai
  deriving DecidableEq, Repr

/-- `needle` occurs at the head of `hay` (helper for the substring test). -/
def headMatch : List Char → List Char → Bool
  | [], _ => true
  | _ :: _, [] => false
  | c :: cs, d :: ds => (c == d) && headMatch cs ds

/-- `needle` occurs somewhere in `hay`: Lean model of Python's
`needle in hay` substring operator. -/
def hasSub (needle : List Char) : List Char → Bool
  | [] => headMatch needle []
  | d :: ds => headMatch needle (d :: ds) || hasSub needle ds

/-- Python `kw in s` for strings. -/
def strHasSub (s kw : String) : Bool :=
  hasSub kw.toList s.toList

/-- Python's `query.lower()`: lowercase every character. (Modelled with
`Char.toLower`, which lowercases the ASCII range — the router's keywords are
all ASCII, so the substring tests agree with Python's on them.) -/
def pyLower (s : String) : String :=
  String.mk (s.toList.map Char.toLower)

/-- `choose_llm` (src/task_classifier.py lines 52-61): lowercases the query,
then a four-branch if/elif keyword chain picks a backend, a display name, a
rationale and a hardcoded confidence. Python float literals 0.92 etc. are
modelled as exact rationals. -/
def choose_llm (query : String) : Backend × String × String × ℚ :=
  let q := pyLower query
  if strHasSub q "image" || strHasSub q "analyze" then
    (Backend.gemini, "Gemini",
     "Gemini is better at multimodal reasoning (text + images).", 92/100)
  else if strHasSub q "summarize" || strHasSub q "explain" then
    (Backend.openai, "OpenAI gpt-5-nano",
     "GPT is excellent for summarization and structured text tasks.", 95/100)
  else if strHasSub q "creative" || strHasSub q "story" then
    (Backend.openai, "OpenAI gpt-5-nano",
     "GPT is strong for creative writing tasks.", 93/100)
  else
    (Backend.gemini, "Gemini",
     "Gemini flash is faster for general-purpose queries.", 90/100)

/-- One rule of the spec's routing policy: a keyword list, and the decision
(backend, display label, rationale, confidence) it yields when it fires. -/
structure RouteRule where
  keywords : List String
  decision : Backend × String × String × ℚ

/-- The spec's four-rule policy, stated as the first three keyword rules
(rule 4 is the default, `specDefault`). Spec section 4.1. -/
def specRules : List RouteRule :=
  [⟨["image", "analyze"],
    (Backend.gemini, "Gemini",
     "Gemini is better at multimodal reasoning (text + images).", 92/100)⟩,
   ⟨["summarize", "explain"],
    (Backend.openai, "OpenAI gpt-5-nano",
     "GPT is excellent for summarization and structured text tasks.", 95/100)⟩,
   ⟨["creative", "story"],
    (Backend.openai, "OpenAI gpt-5-nano",
     "GPT is strong for creative writing tasks.", 93/100)⟩]

/-- Rule 4 of the spec's policy: the multimodal-capable default. -/
def specDefault : Backend × String × String × ℚ :=
  (Backend.gemini, "Gemini",
   "Gemini flash is faster for general-purpose queries.", 90/100)

/-- First-match evaluation of a rule list: a rule fires when any of its
keywords is a case-insensitive substring of the query; otherwise the
remaining rules are tried, falling through to the default. -/
def firstMatchRoute (q : String) : List RouteRule → Backend × String × String × ℚ
  | [] => specDefault
  | r :: rs =>
    if r.keywords.any (fun kw => strHasSub (pyLower q) kw) then r.decision
    else firstMatchRoute q rs

/-- The spec's router policy (section 4.1), written from the spec's words:
first match wins over the four rules, case-insensitive substring test
against the whole query, total with no error path. -/
def routerPolicy (q : String) : Backend × String × String × ℚ :=
  firstMatchRoute q specRules

/-- Concatenation of a streamed response: `final_response += chunk.content or ""`
accumulated over the chunk list. A chunk's content may be `None` (modelled as
`Option.none`), which contributes the empty string. -/
def streamConcat (chunks : List (Option String)) : String :=
  chunks.foldl (fun acc c => acc ++ c.getD "") ""

/-- Python's `f"{accuracy*100:.1f}"` for the router's constant confidences
(all exact multiples of 1/100, so one decimal digit suffices and floor is
exact). -/
def fmtPct1 (c : ℚ) : String :=
  let n := (c * 1000).floor
  toString (n / 10) ++ "." ++ toString (n % 10)

/-- The `meta_info` block appended to the final answer
(src/task_classifier.py line 85). -/
def metaBlock (name reason : String) (accuracy : ℚ) : String :=
  "\n\n---\n**ℹ️ Model Used:** " ++ name ++ "\n**Reason:** " ++ reason ++
  "\n**Estimated Accuracy:** " ++ fmtPct1 accuracy ++ "%"

/-- What one run of `handle_text_task` did: which backend it streamed from,
the exact prompt it sent, and the final answer text. -/
structure TextTaskRun where
  backend : Backend
  prompt : String
  answer : String
  deriving DecidableEq, Repr

/-- `handle_text_task` (src/task_classifier.py lines 72-88): route via
`choose_llm`, build the minimal prompt, stream the response (the backend is
the oracle `stream`), then append the metadata block. -/
def handle_text_task (stream : Backend → String → List (Option String))
    (query : String) : TextTaskRun :=
  let d := choose_llm query
  let llm := d.1
  let name := d.2.1
  let reason := d.2.2.1
  let accuracy := d.2.2.2
  let prompt := "User: " ++ query ++ "\nAssistant:"
  let final_response := streamConcat (stream llm prompt)
  ⟨llm, prompt, final_response ++ metaBlock name reason accuracy⟩

/-- Observable outcome of one rerun of the tab1 handler block: the resulting
conversation history, the warnings shown, and how many backend (streaming)
calls were issued. -/
structure Tab1Result where
  conversation : List (String × String)
  warnings : List String
  backendCalls : Nat

/-- The tab1 event-handler block (src/task_classifier.py lines 98-103):
`Clear Conversation` empties the history; then `Process` with a truthy
(non-empty) query runs `handle_text_task` and appends `(query, ans)`.
An empty query blocks the action with no warning. -/
def tab1_run (stream : Backend → String → List (Option String))
    (conversation : List (String × String))
    (clear_clicked process_clicked : Bool) (query : String) : Tab1Result :=
  let conv1 := if clear_clicked then [] else conversation
  if process_clicked && !(query == "") then
    ⟨conv1 ++ [(query, (handle_text_task stream query).answer)], [], 1⟩
  else
    ⟨conv1, [], 0⟩

/-- Iterated successful submissions: fold the tab1 handler (Process clicked,
Clear not clicked) over a list of queries. -/
def runSubmissions (stream : Backend → String → List (Option String))
    (conv : List (String × String)) : List String → List (String × String)
  | [] => conv
  | q :: qs =>
    runSubmissions stream (tab1_run stream conv false true q).conversation qs

/-- Cache of the `@st.cache_data`-decorated `fetch_image`: an association
list keyed by the exact argument pair `(final_prompt, token)`. -/
abbrev ImgCache := List ((String × String) × List Nat)

/-- Exact-key lookup in the image cache (no normalization of the key). -/
def lookupCache (c : ImgCache) (k : String × String) : Option (List Nat) :=
  match c with
  | [] => none
  | (j, v) :: rest => if k = j then some v else lookupCache rest k

/-- The URL built by `fetch_image`
(`f"https://image.pollinations.ai/prompt/\x7bfinal_prompt\x7d?token=\x7btoken\x7d"`). -/
def mkUrl (final_prompt token : String) : String :=
  "https://image.pollinations.ai/prompt/" ++ final_prompt ++ "?token=" ++ token

/-- `fetch_image` (src/task_classifier.py lines 136-139) under
`@st.cache_data`: on a cache hit return the memoized bytes with zero network
fetches; on a miss perform one GET (`net` is the network oracle, applied to
the built URL), store the result under the exact key, and report one fetch.
Returns (bytes, updated cache, number of underlying network fetches). -/
def fetch_image (net : String → List Nat) (cache : ImgCache)
    (final_prompt token : String) : List Nat × ImgCache × Nat :=
  match lookupCache cache (final_prompt, token) with
  | some v => (v, cache, 0)
  | none =>
    let v := net (mkUrl final_prompt token)
    (v, ((final_prompt, token), v) :: cache, 1)

/-- `smart_enhance_prompt` (src/task_classifier.py lines 130-133): build the
fixed-template instruction, send it non-streaming (`invoke` is the backend
oracle), and strip whitespace from the full response. Also returns the exact
list of requests sent, to count backend calls. -/
def smart_enhance_prompt (invoke : String → String)
    (user_prompt style : String) : String × List String :=
  let quick_prompt :=
    "Rewrite this short prompt into a detailed " ++ style ++
    " image generation description: " ++ user_prompt
  ((invoke quick_prompt).trim, [quick_prompt])

/-- What the tab2 handler rendered: a warning, a displayed image
(caption and decoded image), or an error banner. -/
inductive Tab2Output where
  | warn (msg : String)
  | imageShown (caption : String) (img : List Nat)
  | errorMsg (msg : String)
  deriving DecidableEq, Repr

/-- Observable outcome of one run of the tab2 `Generate Image` handler:
what was rendered, the exact prompts sent to the enhancement backend, and
the exact URLs fetched (one request per list entry, in order). -/
structure Tab2Result where
  output : Tab2Output
  invokeSent : List String
  fetchUrls : List String

/-- The tab2 `Generate Image` handler (src/task_classifier.py lines 141-164):
empty prompt warns and stops; otherwise enhance the prompt, then inside a
try/except fetch the image bytes (`net`, which may raise) and decode them
(`decodeImg`, modelling `Image.open`, which may raise); any exception is
caught and shown as one error message. No retry anywhere. -/
def tab2_generate (invoke : String → String)
    (net : String → Except String (List Nat))
    (decodeImg : List Nat → Except String (List Nat))
    (img_prompt selected_style token : String) : Tab2Result :=
  if img_prompt == "" then
    ⟨Tab2Output.warn "⚠️ Please enter a prompt before generating an image.", [], []⟩
  else
    let e := smart_enhance_prompt invoke img_prompt selected_style
    let final_prompt := e.1
    let url := mkUrl final_prompt token
    let out : Tab2Output :=
      match net url with
      | Except.error exc =>
        Tab2Output.errorMsg ("❌ Failed to generate image: " ++ exc)
      | Except.ok img_bytes =>
        match decodeImg img_bytes with
        | Except.error exc =>
          Tab2Output.errorMsg ("❌ Failed to generate image: " ++ exc)
        | Except.ok img => Tab2Output.imageShown final_prompt img
    ⟨out, e.2, [url]⟩

/-- The base64 alphabet character for a 6-bit value (RFC 4648, as used by
Python's `base64.b64encode`). -/
def b64Char (n : Nat) : Char :=
  if n < 26 then Char.ofNat (65 + n)
  else if n < 52 then Char.ofNat (97 + (n - 26))
  else if n < 62 then Char.ofNat (48 + (n - 52))
  else if n = 62 then '+'
  else '/'

/-- Inverse of the base64 alphabet. -/
def b64Val (c : Char) : Option Nat :=
  if 65 ≤ c.toNat ∧ c.toNat ≤ 90 then some (c.toNat - 65)
  else if 97 ≤ c.toNat ∧ c.toNat ≤ 122 then some (26 + (c.toNat - 97))
  else if 48 ≤ c.toNat ∧ c.toNat ≤ 57 then some (52 + (c.toNat - 48))
  else if c = '+' then some 62
  else if c = '/' then some 63
  else none

/-- Standard base64 encoding of a byte list (each entry < 256), three bytes
at a time with `=` padding: the model of `base64.b64encode(...)`. -/
def base64EncodeList : List Nat → List Char
  | [] => []
  | [a] => [b64Char (a / 4), b64Char (a % 4 * 16), '=', '=']
  | [a, b] =>
    [b64Char (a / 4), b64Char (a % 4 * 16 + b / 16), b64Char (b % 16 * 4), '=']
  | a :: b :: c :: rest =>
    b64Char (a / 4) :: b64Char (a % 4 * 16 + b / 16) ::
    b64Char (b % 16 * 4 + c / 64) :: b64Char (c % 64) ::
    base64EncodeList rest

/-- Standard base64 decoding (inverse direction), used to state that the
data-URL payload carries exactly the raw uploaded bytes. -/
def base64DecodeList : List Char → Option (List Nat)
  | [] => some []
  | a :: b :: c :: d :: rest =>
    match b64Val a, b64Val b with
    | some va, some vb =>
      if c = '=' ∧ d = '=' ∧ rest = [] then some [va * 4 + vb / 16]
      else
        match b64Val c with
        | some vc =>
          if d = '=' ∧ rest = [] then
            some [va * 4 + vb / 16, vb % 16 * 16 + vc / 4]
          else
            match b64Val d with
            | some vd =>
              (base64DecodeList rest).map
                (fun tl => (va * 4 + vb / 16) :: (vb % 16 * 16 + vc / 4) ::
                  (vc % 4 * 64 + vd) :: tl)
            | none => none
        | none => none
    | _, _ => none
  | _ => none

/-- `base64.b64encode(img_bytes).decode("utf-8")` as a Lean `String`. -/
def b64encodeStr (bytes : List Nat) : String :=
  String.mk (base64EncodeList bytes)

/-- The data URL built by the tab3 handler (src/task_classifier.py line 186):
the media type is the fixed literal `image/png`, whatever the bytes are. -/
def dataUrl (img_bytes : List Nat) : String :=
  "data:image/png;base64," ++ b64encodeStr img_bytes

/-- The accepted upload extensions of `st.file_uploader`
(src/task_classifier.py line 173). -/
def uploaderTypes : List String := ["jpg", "jpeg", "png"]

/-- One part of the multimodal message content list built by tab3. -/
inductive ContentPart where
  | text (t : String)
  | image_url (url : String)
  deriving DecidableEq, Repr

/-- Observable outcome of one run of the tab3 `Analyze Image` handler:
warnings shown, the multimodal request sent (if any) with its target backend,
and the rendered answer (if any). -/
structure QnAResult where
  warnings : List String
  request : Option (Backend × List ContentPart)
  answer : Option String

/-- The tab3 `Analyze Image` handler (src/task_classifier.py lines 176-198):
missing upload or empty question warns and stops; otherwise the raw uploaded
bytes are base64-encoded into a `data:image/png` URL, a single message with
the question text and the image reference is streamed, and the answer is the
concatenation of the chunk contents.

Modelled from the spec: the module-level `llm` handle this block streams
from is not defined anywhere in src/task_classifier.py; per the spec
(section 4.4) the request goes to the multimodal-capable backend, i.e.
Gemini. -/
def tab3_analyze (stream : List ContentPart → List (Option String))
    (uploaded_img : Option (List Nat)) (qna_prompt : String) : QnAResult :=
  match uploaded_img with
  | none => ⟨["⚠️ Please upload an image first."], none, none⟩
  | some img_bytes =>
    if qna_prompt == "" then
      ⟨["⚠️ Please enter a question about the image."], none, none⟩
    else
      let data_url := dataUrl img_bytes
      let content := [ContentPart.text qna_prompt, ContentPart.image_url data_url]
      let chunks := stream content
      ⟨[], some (Backend.gemini, content), some (streamConcat chunks)⟩

/-- A concrete stream oracle used by the closed witness theorems. -/
def wStream : Backend → String → List (Option String) :=
  fun _ _ => [some "All ", none, some "good."]

/-- A concrete network oracle (always returns the same three bytes). -/
def wNet : String → List Nat :=
  fun _ => [0, 1, 2]

/-- A concrete enhancement-backend oracle. -/
def wInvoke : String → String :=
  fun s => "  a detailed rendering of: " ++ s ++ "  "

/-- A concrete multimodal stream oracle. -/
def wQStream : List ContentPart → List (Option String) :=
  fun _ => [some "It is ", none, some "a cat."]

/-- A concrete fallible network oracle that always raises. -/
def wNetErr : String → Except String (List Nat) :=
  fun _ => Except.error "boom"

/-- A concrete fallible network oracle that always succeeds. -/
def wNetOk : String → Except String (List Nat) :=
  fun _ => Except.ok [9, 9]

/-- A concrete image decoder that always succeeds. -/
def wDecodeOk : List Nat → Except String (List Nat) :=
  fun b => Except.ok b

/-- A concrete image decoder that always raises (undecodable bytes). -/
def wDecodeErr : List Nat → Except String (List Nat) :=
  fun _ => Except.error "cannot identify image file"

theorem choose_eq_policy (q : String) : choose_llm q = routerPolicy q := by
  rcases h1 : strHasSub (pyLower q) "image" <;>
    rcases h2 : strHasSub (pyLower q) "analyze" <;>
    rcases h3 : strHasSub (pyLower q) "summarize" <;>
    rcases h4 : strHasSub (pyLower q) "explain" <;>
    rcases h5 : strHasSub (pyLower q) "creative" <;>
    rcases h6 : strHasSub (pyLower q) "story" <;>
    simp [choose_llm, routerPolicy, firstMatchRoute, specRules, specDefault,
      h1, h2, h3, h4, h5, h6]

/-- C1: For every query string, the router (`choose_llm`) returns exactly the
backend, display label, rationale, and confidence given by the four-rule
first-match policy applied as a case-insensitive substring test on the
lowercased query; the mapping is total (a total Lean function) with no error
path. -/
theorem C1_router_follows_policy (q : String) : choose_llm q = routerPolicy q :=
  choose_eq_policy q

/-- C9: Router selection is deterministic and a pure function of the
lowercased query: any two invocations of `choose_llm` whose inputs have the
same lowercasing return all four components identical. -/
theorem C9_router_pure_of_lowercase (q1 q2 : String)
    (h : pyLower q1 = pyLower q2) : choose_llm q1 = choose_llm q2 := by
  unfold choose_llm
  rw [h]

/-- Witness for C9 at the concrete pair "Tell me a STORY" / "tell me a story". -/
theorem C9_witness :
    pyLower "Tell me a STORY" = pyLower "tell me a story" ∧
    choose_llm "Tell me a STORY" = choose_llm "tell me a story" :=
  ⟨rfl, C9_router_pure_of_lowercase "Tell me a STORY" "tell me a story" rfl⟩

/-- C2: For every non-empty query submitted in the text session, the query is
routed via `choose_llm`, the request prompt is exactly
`"User: <query>\nAssistant:"`, the final answer is the concatenation of the
streamed chunk contents followed by the metadata block (model name,
rationale, confidence), and `(query, answer)` is appended to the
conversation history. -/
theorem C2_text_submission (stream : Backend → String → List (Option String))
    (conv : List (String × String)) (query : String) (h : query ≠ "") :
    (handle_text_task stream query).backend = (choose_llm query).1 ∧
    (handle_text_task stream query).prompt = "User: " ++ query ++ "\nAssistant:" ∧
    (handle_text_task stream query).answer =
      streamConcat (stream (choose_llm query).1 ("User: " ++ query ++ "\nAssistant:")) ++
        metaBlock (choose_llm query).2.1 (choose_llm query).2.2.1
          (choose_llm query).2.2.2 ∧
    (tab1_run stream conv false true query).conversation =
      conv ++ [(query, (handle_text_task stream query).answer)] := by
  refine ⟨rfl, rfl, rfl, ?_⟩
  simp [tab1_run, h]

/-- Witness for C2 at the concrete query "hi". -/
theorem C2_witness :
    ("hi" : String) ≠ "" ∧
    ((handle_text_task wStream "hi").backend = (choose_llm "hi").1 ∧
     (handle_text_task wStream "hi").prompt = "User: " ++ "hi" ++ "\nAssistant:" ∧
     (handle_text_task wStream "hi").answer =
       streamConcat (wStream (choose_llm "hi").1 ("User: " ++ "hi" ++ "\nAssistant:")) ++
         metaBlock (choose_llm "hi").2.1 (choose_llm "hi").2.2.1
           (choose_llm "hi").2.2.2 ∧
     (tab1_run wStream [] false true "hi").conversation =
       [] ++ [("hi", (handle_text_task wStream "hi").answer)]) :=
  ⟨by decide, C2_text_submission wStream [] "hi" (by decide)⟩

theorem runSubmissions_append (stream : Backend → String → List (Option String))
    (qs : List String) :
    ∀ conv, (∀ q ∈ qs, q ≠ "") →
      runSubmissions stream conv qs =
        conv ++ qs.map (fun q => (q, (handle_text_task stream q).answer)) := by
  induction qs with
  | nil => intro conv _; simp [runSubmissions]
  | cons q qs ih =>
    intro conv h
    have hq : q ≠ "" := h q (by simp)
    have hrest : ∀ r ∈ qs, r ≠ "" := fun r hr => h r (by simp [hr])
    simp [runSubmissions, tab1_run, hq, ih _ hrest]

/-- C3: Starting from an empty history, N successful submissions leave
exactly the N `(query, answer)` pairs in submission order; a Clear (with no
submission) resets the history to empty; and any run without Clear only ever
appends — existing entries are never removed or reordered. -/
theorem C3_history_append_only
    (stream : Backend → String → List (Option String)) :
    (∀ queries : List String, (∀ q ∈ queries, q ≠ "") →
      runSubmissions stream [] queries =
        queries.map (fun q => (q, (handle_text_task stream q).answer))) ∧
    (∀ conv q, (tab1_run stream conv true false q).conversation = []) ∧
    (∀ conv pc q, ∃ t,
      (tab1_run stream conv false pc q).conversation = conv ++ t) := by
  refine ⟨fun qs h => by simpa using runSubmissions_append stream qs [] h, ?_, ?_⟩
  · intro conv q
    simp [tab1_run]
  · intro conv pc q
    by_cases hb : (pc && !(q == "")) = true
    · exact ⟨[(q, (handle_text_task stream q).answer)], by simp [tab1_run, hb]⟩
    · refine ⟨[], ?_⟩
      rw [Bool.not_eq_true] at hb
      simp [tab1_run, hb]

/-- Witness for C3: two concrete submissions from the empty history, and a
concrete Clear. -/
theorem C3_witness :
    runSubmissions wStream [] ["hi there", "explain this"] =
      [("hi there", (handle_text_task wStream "hi there").answer),
       ("explain this", (handle_text_task wStream "explain this").answer)] ∧
    (tab1_run wStream [("a", "b")] true false "x").conversation = [] :=
  ⟨(C3_history_append_only wStream).1 ["hi there", "explain this"] (by decide),
   (C3_history_append_only wStream).2.1 [("a", "b")] "x"⟩

/-- C4: From a cache with no entry for the exact pair `(p, t)`, two
`fetch_image` calls with identical arguments perform exactly one underlying
network fetch (one on the first call, zero on the second) and return the
same bytes; and the new cache entry is stored under the exact key, leaving
every distinct key's lookup unchanged. -/
theorem C4_cache_single_fetch (net : String → List Nat) (cache : ImgCache)
    (p t : String) (h : lookupCache cache (p, t) = none) :
    (fetch_image net cache p t).2.2 = 1 ∧
    (fetch_image net (fetch_image net cache p t).2.1 p t).2.2 = 0 ∧
    (fetch_image net (fetch_image net cache p t).2.1 p t).1 =
      (fetch_image net cache p t).1 ∧
    (∀ k : String × String, k ≠ (p, t) →
      lookupCache (fetch_image net cache p t).2.1 k = lookupCache cache k) := by
  have h1 : fetch_image net cache p t =
      (net (mkUrl p t), ((p, t), net (mkUrl p t)) :: cache, 1) := by
    simp [fetch_image, h]
  have h2 : fetch_image net (((p, t), net (mkUrl p t)) :: cache) p t =
      (net (mkUrl p t), ((p, t), net (mkUrl p t)) :: cache, 0) := by
    simp [fetch_image, lookupCache]
  refine ⟨by rw [h1], by rw [h1, h2], by rw [h1, h2], ?_⟩
  intro k hk
  rw [h1]
  simp [lookupCache, hk]

/-- Witness for C4 at a concrete prompt/token pair from the empty cache. -/
theorem C4_witness :
    lookupCache [] ("a cat", "tok") = none ∧
    ((fetch_image wNet [] "a cat" "tok").2.2 = 1 ∧
     (fetch_image wNet (fetch_image wNet [] "a cat" "tok").2.1 "a cat" "tok").2.2 = 0 ∧
     (fetch_image wNet (fetch_image wNet [] "a cat" "tok").2.1 "a cat" "tok").1 =
       (fetch_image wNet [] "a cat" "tok").1 ∧
     (∀ k : String × String, k ≠ ("a cat", "tok") →
       lookupCache (fetch_image wNet [] "a cat" "tok").2.1 k = lookupCache [] k)) :=
  ⟨rfl, C4_cache_single_fetch wNet [] "a cat" "tok" rfl⟩

/-- C5 counterexample: submitting the text form with an empty query blocks
the action but produces NO user-visible warning (the warnings list of the
tab1 run is empty), contradicting the claim that every missing required
input is blocked with a warning. -/
theorem C5_counterexample :
    (tab1_run wStream [] false true "").warnings = [] ∧
    (tab1_run wStream [] false true "").backendCalls = 0 ∧
    (tab1_run wStream [] false true "").conversation = [] := by
  refine ⟨rfl, rfl, rfl⟩

/-- C5 (amended): missing required input never reaches a backend — an empty
image prompt, a missing upload, or an empty image question each block the
action with a user-visible warning and zero backend calls, while an empty
text query blocks the action silently (zero backend calls, history
unchanged, but no warning). -/
theorem C5_missing_input_blocked
    (stream : Backend → String → List (Option String))
    (invoke : String → String) (net : String → Except String (List Nat))
    (decodeImg : List Nat → Except String (List Nat))
    (qstream : List ContentPart → List (Option String)) :
    (∀ conv cc, (tab1_run stream conv cc true "").backendCalls = 0 ∧
      (tab1_run stream conv false true "").warnings = [] ∧
      (tab1_run stream conv false true "").conversation = conv) ∧
    (∀ style token, tab2_generate invoke net decodeImg "" style token =
      ⟨Tab2Output.warn "⚠️ Please enter a prompt before generating an image.",
       [], []⟩) ∧
    (∀ q, (tab3_analyze qstream none q).warnings =
        ["⚠️ Please upload an image first."] ∧
      (tab3_analyze qstream none q).request = none ∧
      (tab3_analyze qstream none q).answer = none) ∧
    (∀ bytes, (tab3_analyze qstream (some bytes) "").warnings =
        ["⚠️ Please enter a question about the image."] ∧
      (tab3_analyze qstream (some bytes) "").request = none ∧
      (tab3_analyze qstream (some bytes) "").answer = none) := by
  refine ⟨?_, ?_, ?_, ?_⟩
  · intro conv cc
    refine ⟨?_, rfl, rfl⟩
    cases cc <;> rfl
  · intro style token
    rfl
  · intro q
    exact ⟨rfl, rfl, rfl⟩
  · intro bytes
    exact ⟨rfl, rfl, rfl⟩

/-- C6: With a non-empty prompt and any style, the enhancement step sends
exactly one non-streaming request, whose text is the fixed template
instantiated with the style and the user's prompt, and the image fetch uses
exactly the whitespace-stripped full response as the enhanced prompt. -/
theorem C6_enhancement_template (invoke : String → String)
    (net : String → Except String (List Nat))
    (decodeImg : List Nat → Except String (List Nat))
    (img_prompt style token : String) (h : img_prompt ≠ "") :
    smart_enhance_prompt invoke img_prompt style =
      ((invoke ("Rewrite this short prompt into a detailed " ++ style ++
        " image generation description: " ++ img_prompt)).trim,
       ["Rewrite this short prompt into a detailed " ++ style ++
        " image generation description: " ++ img_prompt]) ∧
    (tab2_generate invoke net decodeImg img_prompt style token).invokeSent =
      ["Rewrite this short prompt into a detailed " ++ style ++
       " image generation description: " ++ img_prompt] ∧
    (tab2_generate invoke net decodeImg img_prompt style token).fetchUrls =
      [mkUrl ((invoke ("Rewrite this short prompt into a detailed " ++ style ++
        " image generation description: " ++ img_prompt)).trim) token] := by
  refine ⟨rfl, ?_, ?_⟩ <;>
    simp [tab2_generate, smart_enhance_prompt, h]

/-- Witness for C6 at a concrete prompt, style and token. -/
theorem C6_witness :
    ("a cat" : String) ≠ "" ∧
    (smart_enhance_prompt wInvoke "a cat" "Cartoon" =
      ((wInvoke ("Rewrite this short prompt into a detailed " ++ "Cartoon" ++
        " image generation description: " ++ "a cat")).trim,
       ["Rewrite this short prompt into a detailed " ++ "Cartoon" ++
        " image generation description: " ++ "a cat"]) ∧
     (tab2_generate wInvoke wNetOk wDecodeOk "a cat" "Cartoon" "tok").invokeSent =
       ["Rewrite this short prompt into a detailed " ++ "Cartoon" ++
        " image generation description: " ++ "a cat"] ∧
     (tab2_generate wInvoke wNetOk wDecodeOk "a cat" "Cartoon" "tok").fetchUrls =
       [mkUrl ((wInvoke ("Rewrite this short prompt into a detailed " ++ "Cartoon" ++
         " image generation description: " ++ "a cat")).trim) "tok"]) :=
  ⟨by decide, C6_enhancement_template wInvoke wNetOk wDecodeOk "a cat" "Cartoon"
    "tok" (by decide)⟩

/-- C8: With a non-empty prompt, an error raised during the image fetch (the
network call raises) or during the decode step (undecodable bytes) is caught
and rendered as the user-visible error banner; exactly one fetch was
attempted (no retry) and no image is displayed (no partial result). -/
theorem C8_fetch_decode_errors_caught (invoke : String → String)
    (img_prompt style token : String) (h : img_prompt ≠ "") :
    (∀ (emsg : String) (decodeImg : List Nat → Except String (List Nat)),
      (tab2_generate invoke (fun _ => Except.error emsg) decodeImg
          img_prompt style token).output =
        Tab2Output.errorMsg ("❌ Failed to generate image: " ++ emsg) ∧
      (tab2_generate invoke (fun _ => Except.error emsg) decodeImg
          img_prompt style token).fetchUrls.length = 1) ∧
    (∀ (bytes : List Nat) (emsg : String),
      (tab2_generate invoke (fun _ => Except.ok bytes)
          (fun _ => Except.error emsg) img_prompt style token).output =
        Tab2Output.errorMsg ("❌ Failed to generate image: " ++ emsg) ∧
      (tab2_generate invoke (fun _ => Except.ok bytes)
          (fun _ => Except.error emsg) img_prompt style token).fetchUrls.length
        = 1) := by
  constructor
  · intro emsg decodeImg
    constructor <;> simp [tab2_generate, smart_enhance_prompt, h]
  · intro bytes emsg
    constructor <;> simp [tab2_generate, smart_enhance_prompt, h]

/-- Witness for C8 at a concrete prompt, with a raising network oracle and a
raising decoder. -/
theorem C8_witness :
    ("a dog" : String) ≠ "" ∧
    (((tab2_generate wInvoke (fun _ => Except.error "boom") wDecodeOk
          "a dog" "Fantasy" "tok").output =
        Tab2Output.errorMsg ("❌ Failed to generate image: " ++ "boom") ∧
      (tab2_generate wInvoke (fun _ => Except.error "boom") wDecodeOk
          "a dog" "Fantasy" "tok").fetchUrls.length = 1) ∧
     ((tab2_generate wInvoke (fun _ => Except.ok [9, 9])
          (fun _ => Except.error "cannot identify image file")
          "a dog" "Fantasy" "tok").output =
        Tab2Output.errorMsg
          ("❌ Failed to generate image: " ++ "cannot identify image file") ∧
      (tab2_generate wInvoke (fun _ => Except.ok [9, 9])
          (fun _ => Except.error "cannot identify image file")
          "a dog" "Fantasy" "tok").fetchUrls.length = 1)) :=
  ⟨by decide,
   ⟨(C8_fetch_decode_errors_caught wInvoke "a dog" "Fantasy" "tok"
      (by decide)).1 "boom" wDecodeOk,
    (C8_fetch_decode_errors_caught wInvoke "a dog" "Fantasy" "tok"
      (by decide)).2 [9, 9] "cannot identify image file"⟩⟩

/-- C7: For every uploaded image and non-empty question, the Image Q&A flow
base64-encodes the raw bytes into a data URL, sends a single multimodal
message holding exactly the question text and that image reference to the
multimodal-capable backend as a streaming request, and the rendered answer
is the concatenation of the streamed chunk contents. -/
theorem C7_image_qna (stream : List ContentPart → List (Option String))
    (bytes : List Nat) (q : String) (h : q ≠ "") :
    (tab3_analyze stream (some bytes) q).warnings = [] ∧
    (tab3_analyze stream (some bytes) q).request =
      some (Backend.gemini,
        [ContentPart.text q,
         ContentPart.image_url ("data:image/png;base64," ++ b64encodeStr bytes)]) ∧
    (tab3_analyze stream (some bytes) q).answer =
      some (streamConcat (stream
        [ContentPart.text q,
         ContentPart.image_url ("data:image/png;base64," ++ b64encodeStr bytes)])) := by
  refine ⟨?_, ?_, ?_⟩ <;>
    simp only [tab3_analyze, dataUrl, beq_iff_eq, if_neg h]

/-- Witness for C7 at a concrete two-byte image and question. -/
theorem C7_witness :
    ("What is this?" : String) ≠ "" ∧
    ((tab3_analyze wQStream (some [137, 80]) "What is this?").warnings = [] ∧
     (tab3_analyze wQStream (some [137, 80]) "What is this?").request =
       some (Backend.gemini,
         [ContentPart.text "What is this?",
          ContentPart.image_url
            ("data:image/png;base64," ++ b64encodeStr [137, 80])]) ∧
     (tab3_analyze wQStream (some [137, 80]) "What is this?").answer =
       some (streamConcat (wQStream
         [ContentPart.text "What is this?",
          ContentPart.image_url
            ("data:image/png;base64," ++ b64encodeStr [137, 80])]))) :=
  ⟨by decide, C7_image_qna wQStream [137, 80] "What is this?" (by decide)⟩

theorem b64Val_b64Char : ∀ n, n < 64 → b64Val (b64Char n) = some n := by
  decide

theorem b64Char_ne_pad : ∀ n, n < 64 → ¬(b64Char n = '=') := by
  decide

/-- Base64 decoding inverts base64 encoding on byte lists: the encoded
payload carries exactly the original bytes. -/
theorem b64_roundtrip : ∀ (l : List Nat), (∀ x ∈ l, x < 256) →
    base64DecodeList (base64EncodeList l) = some l
  | [], _ => rfl
  | [a], h => by
    have ha : a < 256 := h a (by simp)
    have v1 := b64Val_b64Char (a / 4) (by omega)
    have v2 := b64Val_b64Char (a % 4 * 16) (by omega)
    simp [base64EncodeList, base64DecodeList, v1, v2]
    omega
  | [a, b], h => by
    have ha : a < 256 := h a (by simp)
    have hb : b < 256 := h b (by simp)
    have v1 := b64Val_b64Char (a / 4) (by omega)
    have v2 := b64Val_b64Char (a % 4 * 16 + b / 16) (by omega)
    have v3 := b64Val_b64Char (b % 16 * 4) (by omega)
    have n3 := b64Char_ne_pad (b % 16 * 4) (by omega)
    simp [base64EncodeList, base64DecodeList, v1, v2, v3, n3]
    constructor <;> omega
  | a :: b :: c :: rest, h => by
    have ha : a < 256 := h a (by simp)
    have hb : b < 256 := h b (by simp)
    have hc : c < 256 := h c (by simp)
    have ih := b64_roundtrip rest (fun x hx => h x (by simp [hx]))
    have v1 := b64Val_b64Char (a / 4) (by omega)
    have v2 := b64Val_b64Char (a % 4 * 16 + b / 16) (by omega)
    have v3 := b64Val_b64Char (b % 16 * 4 + c / 64) (by omega)
    have v4 := b64Val_b64Char (c % 64) (by omega)
    have n3 := b64Char_ne_pad (b % 16 * 4 + c / 64) (by omega)
    have n4 := b64Char_ne_pad (c % 64) (by omega)
    simp [base64EncodeList, base64DecodeList, v1, v2, v3, v4, n3, n4, ih]
    refine ⟨by omega, by omega, by omega⟩

/-- C10: For every uploaded byte list, the data URL built by the Image Q&A
flow declares the media type `image/png` (its first 22 characters are
exactly `data:image/png;base64,`, whatever the bytes' real format), even
though the uploader also accepts `jpg`/`jpeg`; the remainder is the base64
payload, which decodes back to exactly the raw uploaded bytes (no
conversion). -/
theorem C10_media_type_fixed_png (bytes : List Nat)
    (h : ∀ x ∈ bytes, x < 256) :
    (dataUrl bytes).toList.take 22 = "data:image/png;base64,".toList ∧
    (dataUrl bytes).toList.drop 22 = base64EncodeList bytes ∧
    base64DecodeList ((dataUrl bytes).toList.drop 22) = some bytes ∧
    uploaderTypes = ["jpg", "jpeg", "png"] := by
  have hsplit : (dataUrl bytes).toList =
      "data:image/png;base64,".toList ++ base64EncodeList bytes := rfl
  have hlen : ("data:image/png;base64,".toList).length = 22 := rfl
  have htake : (dataUrl bytes).toList.take 22 = "data:image/png;base64,".toList := by
    rw [hsplit, ← hlen, List.take_left]
  have hdrop : (dataUrl bytes).toList.drop 22 = base64EncodeList bytes := by
    rw [hsplit, ← hlen, List.drop_left]
  exact ⟨htake, hdrop, by rw [hdrop]; exact b64_roundtrip bytes h, rfl⟩

/-- Witness for C10 at a concrete byte list starting with the JPEG magic
bytes 255, 216: the data URL still declares `image/png`. -/
theorem C10_witness :
    (∀ x ∈ [255, 216, 255, 224], x < 256) ∧
    ((dataUrl [255, 216, 255, 224]).toList.take 22 =
       "data:image/png;base64,".toList ∧
     (dataUrl [255, 216, 255, 224]).toList.drop 22 =
       base64EncodeList [255, 216, 255, 224] ∧
     base64DecodeList ((dataUrl [255, 216, 255, 224]).toList.drop 22) =
       some [255, 216, 255, 224] ∧
     uploaderTypes = ["jpg", "jpeg", "png"]) :=
  ⟨by decide, C10_media_type_fixed_png [255, 216, 255, 224] (by decide)⟩

end TaskClassifier
